import Mathlib

/-!
Verification of the GeekMagic Home Assistant integration's configuration
model: the screen-template catalog (`templates.py`), the configuration
mutations performed by the select entities (`select.py`,
`entities/select.py`), and the preview camera's image caching
(`camera.py`).

Python dictionaries are embedded as insertion-ordered association lists
over a `PyVal` value type; dictionary read/write (`dget`/`dset`) follow
Python 3.7+ semantics (updating an existing key keeps its position, a new
key is appended).
-/

namespace GeekMagic

/-- A Python value as it occurs in GeekMagic config-entry options:
strings, ints, bools, `None`, lists and string-keyed dicts. -/
inductive PyVal where
  | str (s : String)
  | int (n : Int)
  | bool (b : Bool)
  | pynone
  | list (l : List PyVal)
  | dict (d : List (String × PyVal))

/-- A Python dict, as an insertion-ordered association list. -/
abbrev Dict := List (String × PyVal)

/-- `d.get(key)` on a Python dict: the value at the first matching key. -/
def dget : Dict → String → Option PyVal
  | [], _ => none
  | (k, v) :: rest, key => if k = key then some v else dget rest key

/-- `d[key] = val` on a Python dict: replace in place when the key exists
(keeping its position), append otherwise. -/
def dset : Dict → String → PyVal → Dict
  | [], key, val => [(key, val)]
  | (k, v) :: rest, key, val =>
    if k = key then (key, val) :: rest else (k, v) :: dset rest key val

/-- View a `PyVal` as a dict (the empty dict when it is not one; theorems
restrict to well-formed configurations where this case never fires). -/
def asDict : PyVal → Dict
  | PyVal.dict d => d
  | _ => []

/-- Modelled from the spec: `const.py` is outside the provided sources;
the config-option key for the screens list (`CONF_SCREENS`). Its exact
string value is opaque to every claim. -/
def CONF_SCREENS : String := "screens"

/-- Modelled from the spec: the config key for a screen's layout
(`CONF_LAYOUT` in `const.py`). -/
def CONF_LAYOUT : String := "layout"

/-- Modelled from the spec: the config key for a screen's widget list
(`CONF_WIDGETS` in `const.py`). -/
def CONF_WIDGETS : String := "widgets"

/-- Modelled from the spec: layout identifier for the 2x2 grid. -/
def LAYOUT_GRID_2X2 : String := "grid_2x2"

/-- Modelled from the spec: layout identifier for the 2x3 grid. -/
def LAYOUT_GRID_2X3 : String := "grid_2x3"

/-- Modelled from the spec: layout identifier for the hero layout. -/
def LAYOUT_HERO : String := "hero"

/-- Modelled from the spec: layout identifier for the split layout. -/
def LAYOUT_SPLIT : String := "split"

/-- Modelled from the spec: layout identifier for the three-column
layout. -/
def LAYOUT_THREE_COLUMN : String := "three_column"

/-- Modelled from the spec: `LAYOUT_SLOT_COUNTS` from `const.py`, slot
count per layout, matching the spec and the display strings of
`LAYOUT_OPTIONS` in `select.py` (Grid 2x2: 4 slots, Grid 2x3: 6, Hero: 4,
Split: 2, Three Column: 3). -/
def LAYOUT_SLOT_COUNTS : List (String × Nat) :=
  [(LAYOUT_GRID_2X2, 4), (LAYOUT_GRID_2X3, 6), (LAYOUT_HERO, 4),
   (LAYOUT_SPLIT, 2), (LAYOUT_THREE_COLUMN, 3)]

/-- Slot count of a layout identifier (`LAYOUT_SLOT_COUNTS.get(layout, 4)`
as used in `select.py`). -/
def slotCount (layout : String) : Nat :=
  ((LAYOUT_SLOT_COUNTS.find? (fun p => p.1 = layout)).map Prod.snd).getD 4

/-- A Python dict together with an allocation identity (`id()` in
Python); used to state that `dict(...)` in `apply_template` copies a
template's options mapping into a distinct object. -/
structure ODict where
  oid : Nat
  entries : Dict

/-- One widget entry of a template in `SCREEN_TEMPLATES`: slot, widget
type, options dict (with its object identity) and the optional
entity hint. -/
structure TemplateWidget where
  slot : Nat
  type : String
  options : Option ODict := none
  hint : Option String := none

/-- One entry of `SCREEN_TEMPLATES`: display name, description, layout
identifier and widget list. -/
structure Template where
  name : Option String := none
  description : Option String := none
  layout : String
  widgets : List TemplateWidget := []

/-- The `"system_monitor"` entry of `SCREEN_TEMPLATES`. -/
def tmplSystemMonitor : Template :=
  { name := some "System Monitor"
    description := some "CPU, memory, disk, and network monitoring"
    layout := LAYOUT_GRID_2X2
    widgets := [
      { slot := 0, type := "gauge",
        options := some ⟨0, [("style", .str "ring"), ("min", .int 0), ("max", .int 100), ("unit", .str "%")]⟩,
        hint := some "CPU usage sensor (e.g., sensor.processor_use)" },
      { slot := 1, type := "gauge",
        options := some ⟨1, [("style", .str "ring"), ("min", .int 0), ("max", .int 100), ("unit", .str "%")]⟩,
        hint := some "Memory usage sensor (e.g., sensor.memory_use_percent)" },
      { slot := 2, type := "gauge",
        options := some ⟨2, [("style", .str "ring"), ("min", .int 0), ("max", .int 100), ("unit", .str "%")]⟩,
        hint := some "Disk usage sensor (e.g., sensor.disk_use_percent)" },
      { slot := 3, type := "chart",
        options := some ⟨3, [("hours", .int 24), ("show_value", .bool true), ("show_range", .bool false)]⟩,
        hint := some "Network sensor (e.g., sensor.speedtest_download)" }] }

/-- The `"smart_home"` entry of `SCREEN_TEMPLATES`. -/
def tmplSmartHome : Template :=
  { name := some "Smart Home"
    description := some "Temperature, humidity, lights, motion, door, presence"
    layout := LAYOUT_GRID_2X3
    widgets := [
      { slot := 0, type := "entity",
        options := some ⟨4, [("show_name", .bool true), ("show_unit", .bool true), ("icon", .str "thermometer")]⟩,
        hint := some "Temperature sensor" },
      { slot := 1, type := "entity",
        options := some ⟨5, [("show_name", .bool true), ("show_unit", .bool true), ("icon", .str "drop")]⟩,
        hint := some "Humidity sensor" },
      { slot := 2, type := "entity",
        options := some ⟨6, [("show_name", .bool true), ("icon", .str "bulb")]⟩,
        hint := some "Light entity or group" },
      { slot := 3, type := "status",
        options := some ⟨7, [("icon", .str "motion"), ("on_text", .str "Motion"), ("off_text", .str "Clear")]⟩,
        hint := some "Motion sensor" },
      { slot := 4, type := "status",
        options := some ⟨8, [("icon", .str "door"), ("on_text", .str "Open"), ("off_text", .str "Closed")]⟩,
        hint := some "Door sensor" },
      { slot := 5, type := "status",
        options := some ⟨9, [("icon", .str "home"), ("on_text", .str "Home"), ("off_text", .str "Away")]⟩,
        hint := some "Presence sensor or person entity" }] }

/-- The `"weather"` entry of `SCREEN_TEMPLATES`. -/
def tmplWeather : Template :=
  { name := some "Weather Dashboard"
    description := some "Weather with forecast and indoor conditions"
    layout := LAYOUT_HERO
    widgets := [
      { slot := 0, type := "weather",
        options := some ⟨10, [("show_forecast", .bool true), ("forecast_days", .int 3), ("show_humidity", .bool true)]⟩,
        hint := some "Weather entity (e.g., weather.home)" },
      { slot := 1, type := "entity",
        options := some ⟨11, [("show_name", .bool true), ("show_unit", .bool true), ("icon", .str "thermometer")]⟩,
        hint := some "Indoor temperature sensor" },
      { slot := 2, type := "entity",
        options := some ⟨12, [("show_name", .bool true), ("show_unit", .bool true), ("icon", .str "drop")]⟩,
        hint := some "Indoor humidity sensor" },
      { slot := 3, type := "entity",
        options := some ⟨13, [("show_name", .bool true), ("icon", .str "sun")]⟩,
        hint := some "UV index or outdoor condition" }] }

/-- The `"media_player"` entry of `SCREEN_TEMPLATES`. -/
def tmplMediaPlayer : Template :=
  { name := some "Media Player"
    description := some "Now playing with album art and controls"
    layout := LAYOUT_HERO
    widgets := [
      { slot := 0, type := "media",
        options := some ⟨14, [("show_artist", .bool true), ("show_album", .bool false), ("show_progress", .bool true)]⟩,
        hint := some "Media player entity" },
      { slot := 1, type := "entity",
        options := some ⟨15, [("show_name", .bool true), ("show_unit", .bool true)]⟩,
        hint := some "Volume level (media_player attribute)" },
      { slot := 2, type := "text",
        options := some ⟨16, [("text", .str "Now Playing"), ("size", .str "small"), ("align", .str "center")]⟩ },
      { slot := 3, type := "entity",
        options := some ⟨17, [("show_name", .bool true)]⟩,
        hint := some "Media source (media_player attribute)" }] }

/-- The `"clock"` entry of `SCREEN_TEMPLATES`. -/
def tmplClock : Template :=
  { name := some "Clock Dashboard"
    description := some "Large clock with date and status info"
    layout := LAYOUT_HERO
    widgets := [
      { slot := 0, type := "clock",
        options := some ⟨18, [("show_date", .bool true), ("show_seconds", .bool false), ("time_format", .str "24h")]⟩ },
      { slot := 1, type := "entity",
        options := some ⟨19, [("show_name", .bool true), ("show_unit", .bool true), ("icon", .str "thermometer")]⟩,
        hint := some "Temperature sensor" },
      { slot := 2, type := "entity",
        options := some ⟨20, [("show_name", .bool true)]⟩,
        hint := some "Weather condition or outdoor temp" },
      { slot := 3, type := "status",
        options := some ⟨21, [("icon", .str "home"), ("on_text", .str "Home"), ("off_text", .str "Away")]⟩,
        hint := some "Presence indicator" }] }

/-- The `"energy"` entry of `SCREEN_TEMPLATES`. -/
def tmplEnergy : Template :=
  { name := some "Energy Monitor"
    description := some "Power consumption and energy tracking"
    layout := LAYOUT_GRID_2X2
    widgets := [
      { slot := 0, type := "gauge",
        options := some ⟨22, [("style", .str "arc"), ("min", .int 0), ("max", .int 5000), ("unit", .str "W")]⟩,
        hint := some "Current power usage sensor" },
      { slot := 1, type := "chart",
        options := some ⟨23, [("hours", .int 24), ("show_value", .bool true), ("show_range", .bool true)]⟩,
        hint := some "Energy consumption sensor" },
      { slot := 2, type := "entity",
        options := some ⟨24, [("show_name", .bool true), ("show_unit", .bool true)]⟩,
        hint := some "Energy cost sensor or utility meter" },
      { slot := 3, type := "status",
        options := some ⟨25, [("icon", .str "bolt"), ("on_text", .str "Import"), ("off_text", .str "Export")]⟩,
        hint := some "Grid import/export status" }] }

/-- The `"security"` entry of `SCREEN_TEMPLATES`. -/
def tmplSecurity : Template :=
  { name := some "Security"
    description := some "Camera, doors, windows, and alarm status"
    layout := LAYOUT_GRID_2X3
    widgets := [
      { slot := 0, type := "camera",
        options := some ⟨26, [("show_label", .bool true), ("fit", .str "cover")]⟩,
        hint := some "Security camera entity" },
      { slot := 1, type := "status",
        options := some ⟨27, [("icon", .str "door"), ("on_text", .str "Open"), ("off_text", .str "Closed")]⟩,
        hint := some "Front door sensor" },
      { slot := 2, type := "status",
        options := some ⟨28, [("icon", .str "door"), ("on_text", .str "Open"), ("off_text", .str "Closed")]⟩,
        hint := some "Back door sensor" },
      { slot := 3, type := "status",
        options := some ⟨29, [("icon", .str "motion"), ("on_text", .str "Detected"), ("off_text", .str "Clear")]⟩,
        hint := some "Motion sensor" },
      { slot := 4, type := "status",
        options := some ⟨30, [("icon", .str "alarm"), ("on_text", .str "Armed"), ("off_text", .str "Disarmed")]⟩,
        hint := some "Alarm panel state" },
      { slot := 5, type := "status",
        options := some ⟨31, [("icon", .str "lock"), ("on_text", .str "Locked"), ("off_text", .str "Unlocked")]⟩,
        hint := some "Smart lock state" }] }

/-- The `"thermostat"` entry of `SCREEN_TEMPLATES`. -/
def tmplThermostat : Template :=
  { name := some "Thermostat"
    description := some "Climate control with temperature and humidity"
    layout := LAYOUT_SPLIT
    widgets := [
      { slot := 0, type := "gauge",
        options := some ⟨32, [("style", .str "arc"), ("min", .int 10), ("max", .int 35), ("unit", .str "°")]⟩,
        hint := some "Current temperature from climate entity" },
      { slot := 1, type := "gauge",
        options := some ⟨33, [("style", .str "arc"), ("min", .int 0), ("max", .int 100), ("unit", .str "%")]⟩,
        hint := some "Current humidity sensor" }] }

/-- `SCREEN_TEMPLATES` from `templates.py`: the full ordered template
catalog. Each options dict carries a distinct allocation identity
(0..33) standing for its Python object identity. -/
def SCREEN_TEMPLATES : List (String × Template) :=
  [("system_monitor", tmplSystemMonitor),
   ("smart_home", tmplSmartHome),
   ("weather", tmplWeather),
   ("media_player", tmplMediaPlayer),
   ("clock", tmplClock),
   ("energy", tmplEnergy),
   ("security", tmplSecurity),
   ("thermostat", tmplThermostat)]

/-- `get_template` from `templates.py`: `SCREEN_TEMPLATES.get(template_key)`. -/
def get_template (template_key : String) : Option Template :=
  (SCREEN_TEMPLATES.find? (fun p => p.1 = template_key)).map Prod.snd

/-- The screens list read from the options
(`new_options.get(CONF_SCREENS, [])` in the source); theorems restrict to
well-formed options where the stored value, if present, is a list. -/
def getScreens (opts : Dict) : List PyVal :=
  match dget opts CONF_SCREENS with
  | some (PyVal.list l) => l
  | _ => []

/-- The default screen dict appended by `apply_template`'s
"ensure screen exists" loop when the list currently has `n` screens:
`{"name": f"Screen {n + 1}", CONF_LAYOUT: LAYOUT_GRID_2X2, CONF_WIDGETS: []}`. -/
def defaultScreen (n : Nat) : Dict :=
  [("name", PyVal.str ("Screen " ++ toString (n + 1))),
   (CONF_LAYOUT, PyVal.str LAYOUT_GRID_2X2),
   (CONF_WIDGETS, PyVal.list [])]

/-- `k` iterations of the `while len(screens) <= screen_index` body: each
one appends a default screen named after the current length. -/
def padLoop : Nat → List PyVal → List PyVal
  | 0, screens => screens
  | Nat.succ k, screens =>
    padLoop k (screens ++ [PyVal.dict (defaultScreen screens.length)])

/-- The "ensure screen exists" loop of `apply_template`: append default
screens until `screen_index` is a valid index. The loop body runs
`screen_index + 1 - len(screens)` times (zero when the index is already
valid), which is exactly what the `while len(screens) <= screen_index`
loop does. -/
def padScreens (screens : List PyVal) (screen_index : Nat) : List PyVal :=
  padLoop (screen_index + 1 - screens.length) screens

/-- The widget dict built by `apply_template` from one template widget:
`{"type": ..., "slot": ...}` plus, when the template entry has options, a
by-value copy of them under `"options"`; the hint is not copied and no
label is set. -/
def widgetFromTemplate (wt : TemplateWidget) : Dict :=
  [("type", PyVal.str wt.type), ("slot", PyVal.int wt.slot)] ++
    (match wt.options with
     | some o => [("options", PyVal.dict o.entries)]
     | none => [])

/-- The widget built by the same loop in the allocation model: the
`dict(widget_template["options"])` call copies the entries into a dict
with the fresh object identity `fresh`. -/
def widgetFromTemplateAlloc (fresh : Nat) (wt : TemplateWidget) :
    Option ODict :=
  wt.options.map (fun o => ⟨fresh, o.entries⟩)

/-- `apply_template` from `templates.py`, at the level of config-entry
option values. Returns the pair of the Python return value and the
options after the call (`config_entry.options`); when the template key is
unknown the function returns `False` before calling
`async_update_entry`, so the options are unchanged. -/
def apply_template (opts : Dict) (screen_index : Nat)
    (template_key : String) : Bool × Dict :=
  match get_template template_key with
  | none => (false, opts)
  | some template =>
    let screens := padScreens (getScreens opts) screen_index
    let s := asDict ((screens[screen_index]?).getD (PyVal.dict []))
    let s := dset s "name"
      (match template.name with
       | some n => PyVal.str n
       | none => (dget s "name").getD PyVal.pynone)
    let s := dset s CONF_LAYOUT (PyVal.str template.layout)
    let s := dset s CONF_WIDGETS
      (PyVal.list (template.widgets.map (fun w => PyVal.dict (widgetFromTemplate w))))
    (true, dset opts CONF_SCREENS (PyVal.list (screens.set screen_index (PyVal.dict s))))

/-- `GeekMagicScreenLayoutSelect.async_select_option` from `select.py`,
from the point where the display name has been resolved to a layout key
(`layout_key` is `none` when no entry of `LAYOUT_OPTIONS` matched, in
which case no update is issued). Out-of-range screen indices are
rejected: the update is only issued under `screen_idx < len(screens)`. -/
def selectLayoutOption (opts : Dict) (screen_idx : Nat)
    (layout_key : Option String) : Dict :=
  match layout_key with
  | none => opts
  | some key =>
    let screens := getScreens opts
    if screen_idx < screens.length then
      let s := asDict ((screens[screen_idx]?).getD (PyVal.dict []))
      let s := dset s CONF_LAYOUT (PyVal.str key)
      dset opts CONF_SCREENS (PyVal.list (screens.set screen_idx (PyVal.dict s)))
    else opts

/-- Whether a stored widget dict occupies the given slot
(`widget.get("slot") == slot_idx` in the source; well-formed
configurations store slots as ints). -/
def slotMatches (w : PyVal) (slot_idx : Nat) : Bool :=
  match dget (asDict w) "slot" with
  | some (PyVal.int n) => n = (slot_idx : Int)
  | _ => false

/-- The widget-list edit of `GeekMagicSlotWidgetSelect.async_select_option`:
the first widget whose slot matches is removed (type `"empty"`) or has its
type replaced; when none matches and the type is not `"empty"`, a new
widget `{"type": ..., "slot": ...}` is appended. -/
def updateWidgets (widgets : List PyVal) (slot_idx : Nat)
    (widget_type : String) : List PyVal :=
  match widgets with
  | [] =>
    if widget_type = "empty" then []
    else [PyVal.dict [("type", PyVal.str widget_type), ("slot", PyVal.int slot_idx)]]
  | w :: rest =>
    if slotMatches w slot_idx then
      if widget_type = "empty" then rest
      else PyVal.dict (dset (asDict w) "type" (PyVal.str widget_type)) :: rest
    else w :: updateWidgets rest slot_idx widget_type

/-- `GeekMagicSlotWidgetSelect.async_select_option` from `select.py`,
from the point where the display name has been resolved to a widget type
key (`none` when no entry of `WIDGET_OPTIONS` matched: the method
returns without an update). The update is only issued under
`screen_idx < len(screens)`. -/
def selectWidgetOption (opts : Dict) (screen_idx slot_idx : Nat)
    (widget_type : Option String) : Dict :=
  match widget_type with
  | none => opts
  | some wt =>
    let screens := getScreens opts
    if screen_idx < screens.length then
      let s := asDict ((screens[screen_idx]?).getD (PyVal.dict []))
      let widgets :=
        match dget s CONF_WIDGETS with
        | some (PyVal.list l) => l
        | _ => []
      let s := dset s CONF_WIDGETS (PyVal.list (updateWidgets widgets slot_idx wt))
      dset opts CONF_SCREENS (PyVal.list (screens.set screen_idx (PyVal.dict s)))
    else opts

/-- The screen dict `apply_template` edits in place: the (padded)
screens-list entry at the target index. -/
def priorScreen (opts : Dict) (i : Nat) : Dict :=
  asDict ((padScreens (getScreens opts) i)[i]?.getD (PyVal.dict []))

/-- The value written to the screen's `"name"` key:
`template.get("name", screens[screen_index].get("name"))`. -/
def templateName (t : Template) (s : Dict) : PyVal :=
  match t.name with
  | some n => PyVal.str n
  | none => (dget s "name").getD PyVal.pynone

/-- The three screen-dict assignments of `apply_template` (name, layout,
widgets), as one function of the template and the prior screen dict. -/
def appliedScreen (t : Template) (s : Dict) : Dict :=
  dset (dset (dset s "name" (templateName t s))
      CONF_LAYOUT (PyVal.str t.layout))
    CONF_WIDGETS
    (PyVal.list (t.widgets.map (fun w => PyVal.dict (widgetFromTemplate w))))

/-- A well-formed stored screen: a dict whose `CONF_WIDGETS` value, when
present, is a list of widget dicts whose `"slot"` values are not bools
(Python bools compare equal to ints, which the embedding does not
model; the integration only ever stores int slots). -/
def wfScreen (s : PyVal) : Bool :=
  match s with
  | PyVal.dict d =>
    match dget d CONF_WIDGETS with
    | none => true
    | some (PyVal.list ws) =>
      ws.all (fun w =>
        match w with
        | PyVal.dict wd =>
          match dget wd "slot" with
          | some (PyVal.bool _) => false
          | _ => true
        | _ => false)
    | some _ => false
  | _ => false

/-- Well-formed config-entry options: the `CONF_SCREENS` value, when
present, is a list of well-formed screen dicts. -/
def wfOptions (opts : Dict) : Bool :=
  match dget opts CONF_SCREENS with
  | none => true
  | some (PyVal.list l) => l.all wfScreen
  | some _ => false

/-- `DEVICE_MODES` from `entities/select.py`. -/
def DEVICE_MODES : List (String × String) :=
  [("custom", "Custom Views"), ("clock", "Clock"),
   ("weather", "Weather"), ("system", "System Info")]

/-- `DEVICE_MODES[key]`; every use in the source indexes one of the four
present keys, so the default is never reached. -/
def deviceMode (key : String) : String :=
  (((DEVICE_MODES.find? (fun p => p.1 = key)).map Prod.snd).getD "")

/-- `GeekMagicModeSelect.current_option`: the device state is modelled by
its theme field (`DeviceState` lives in the coordinator module, outside
the sources; per the spec it is an object with an integer `theme`, and a
present object is truthy). -/
def modeCurrentOption (device_state : Option Int) : String :=
  match device_state with
  | some theme =>
    if theme = 3 then deviceMode "custom"
    else if theme = 0 then deviceMode "clock"
    else if theme = 1 then deviceMode "weather"
    else if theme = 2 then deviceMode "system"
    else deviceMode "custom"
  | none => deviceMode "custom"

/-- The theme written by `GeekMagicModeSelect.async_select_option`:
`theme_map.get(option, 3)` where `theme_map` inverts `DEVICE_MODES`
(the four display names are distinct, so first-match equals dict
lookup). -/
def modeSelectTheme (option : String) : Int :=
  if option = deviceMode "custom" then 3
  else if option = deviceMode "clock" then 0
  else if option = deviceMode "weather" then 1
  else if option = deviceMode "system" then 2
  else 3

/-- Raw image bytes. -/
abbrev Bytes := List Nat

/-- `_PLACEHOLDER_PNG` from `camera.py`: the fixed 67-byte 1x1
transparent PNG. -/
def PLACEHOLDER_PNG : Bytes :=
  [0x89, 0x50, 0x4E, 0x47, 0x0D, 0x0A, 0x1A, 0x0A,
   0x00, 0x00, 0x00, 0x0D, 0x49, 0x48, 0x44, 0x52,
   0x00, 0x00, 0x00, 0x01, 0x00, 0x00, 0x00, 0x01,
   0x08, 0x06, 0x00, 0x00, 0x00, 0x1F, 0x15, 0xC4, 0x89,
   0x00, 0x00, 0x00, 0x0A, 0x49, 0x44, 0x41, 0x54,
   0x78, 0x9C, 0x63, 0x00, 0x01, 0x00, 0x00, 0x05, 0x00, 0x01,
   0x0D, 0x0A, 0x2D, 0xB4,
   0x00, 0x00, 0x00, 0x00, 0x49, 0x45, 0x4E, 0x44,
   0xAE, 0x42, 0x60, 0x82]

/-- `async_added_to_hass`: the camera's `_last_image` cache is seeded
with the coordinator's current `last_image`. -/
def camInit (coordImage : Option Bytes) : Option Bytes := coordImage

/-- `_handle_coordinator_update`: a non-`None` coordinator image replaces
the cache; a `None` one leaves it alone. -/
def camUpdate (lastImage coordImage : Option Bytes) : Option Bytes :=
  match coordImage with
  | some b => some b
  | none => lastImage

/-- Python `a or b` on optional byte strings: `None` and the empty byte
string are falsy. -/
def pyOrBytes (a b : Option Bytes) : Option Bytes :=
  match a with
  | some x => if x = [] then b else some x
  | none => b

/-- `async_camera_image`: returns the cached-or-current image when one is
truthy (caching it), the placeholder otherwise. The pair is (returned
bytes, `_last_image` after the call). -/
def camImage (lastImage coordImage : Option Bytes) : Bytes × Option Bytes :=
  match pyOrBytes lastImage coordImage with
  | some b => (b, some b)
  | none => (PLACEHOLDER_PNG, lastImage)

/-- The camera's `_last_image` after the entity was added while the
coordinator's `last_image` was `init` and the coordinator then published
the sequence `pubs` (each publish invokes the registered listener
`_handle_coordinator_update` synchronously). -/
def camRun (init : Option Bytes) (pubs : List (Option Bytes)) : Option Bytes :=
  pubs.foldl camUpdate (camInit init)

/-- The coordinator's `last_image` after publishing `pubs` (its value at
entity-add time when nothing was published since). -/
def coordLast (init : Option Bytes) (pubs : List (Option Bytes)) : Option Bytes :=
  pubs.getLast?.getD init

/-- The most recent non-absent value of a published sequence (the last
entry of the list that is not `none`). -/
def lastSome : List (Option Bytes) → Option Bytes
  | [] => none
  | v :: l =>
    match lastSome l with
    | some b => some b
    | none => v

/-- A sample well-formed two-screen configuration. -/
def sampleOpts : Dict :=
  [("host", PyVal.str "192.168.1.20"),
   (CONF_SCREENS, PyVal.list [
      PyVal.dict [("name", PyVal.str "Main"), (CONF_LAYOUT, PyVal.str LAYOUT_SPLIT),
        (CONF_WIDGETS, PyVal.list [PyVal.dict [("type", PyVal.str "gauge"), ("slot", PyVal.int 0)]])],
      PyVal.dict [("name", PyVal.str "Second"), (CONF_LAYOUT, PyVal.str LAYOUT_GRID_2X2),
        (CONF_WIDGETS, PyVal.list [])]])]

/-- A sample well-formed configuration with no screens list. -/
def sampleNoScreens : Dict := [("host", PyVal.str "10.0.0.5")]

/-- The first widget entry of the clock template. -/
def clockWidget0 : TemplateWidget :=
  { slot := 0, type := "clock",
    options := some ⟨18, [("show_date", PyVal.bool true), ("show_seconds", PyVal.bool false),
      ("time_format", PyVal.str "24h")]⟩ }

/-- Reading back the key just written. -/
theorem dget_dset_self (d : Dict) (k : String) (v : PyVal) :
    dget (dset d k v) k = some v := by
  induction d with
  | nil => simp [dget, dset]
  | cons p rest ih =>
    obtain ⟨pk, pv⟩ := p
    by_cases h : pk = k
    · simp [dset, h, dget]
    · simp [dset, h, dget, ih]

/-- Writing one key does not change any other key's value. -/
theorem dget_dset_ne (d : Dict) (k k' : String) (v : PyVal) (h : k' ≠ k) :
    dget (dset d k v) k' = dget d k' := by
  induction d with
  | nil => simp [dget, dset, Ne.symm h]
  | cons p rest ih =>
    obtain ⟨pk, pv⟩ := p
    by_cases hk : pk = k
    · subst hk
      simp [dset, dget, Ne.symm h]
    · simp [dset, hk, dget, ih]

/-- Re-writing a key's already-stored value changes nothing, positions
included. -/
theorem dset_eq_self (d : Dict) (k : String) (v : PyVal)
    (h : dget d k = some v) : dset d k v = d := by
  induction d with
  | nil => simp [dget] at h
  | cons p rest ih =>
    obtain ⟨pk, pv⟩ := p
    by_cases hk : pk = k
    · subst hk
      simp [dget] at h
      simp [dset, h]
    · simp [dget, hk] at h
      simp [dset, hk, ih h]

/-- Setting an index to the element it already holds changes nothing. -/
theorem set_eq_self_of_getElem? {α : Type} (l : List α) (i : Nat) (a : α)
    (h : l[i]? = some a) : l.set i a = l := by
  induction l generalizing i with
  | nil => simp at h
  | cons x xs ih =>
    cases i with
    | zero => simp at h; simp [List.set, h]
    | succ j => simp at h; simp [List.set, ih j h]

/-- Each `padLoop` iteration grows the list by one. -/
theorem padLoop_length (k : Nat) (l : List PyVal) :
    (padLoop k l).length = l.length + k := by
  induction k generalizing l with
  | zero => simp [padLoop]
  | succ n ih => simp [padLoop, ih]; omega

/-- `padLoop` appends, so existing entries are untouched. -/
theorem padLoop_getElem?_lt (k : Nat) (l : List PyVal) (j : Nat)
    (h : j < l.length) : (padLoop k l)[j]? = l[j]? := by
  induction k generalizing l with
  | zero => simp [padLoop]
  | succ n ih =>
    have hlt : j < (l ++ [PyVal.dict (defaultScreen l.length)]).length := by
      simp; omega
    rw [padLoop, ih _ hlt, List.getElem?_append_left h]

/-- The entries appended by `padLoop` are the default screens named after
their final position. -/
theorem padLoop_getElem?_ge (k : Nat) (l : List PyVal) (j : Nat)
    (h : l.length ≤ j) (h2 : j < l.length + k) :
    (padLoop k l)[j]? = some (PyVal.dict (defaultScreen j)) := by
  induction k generalizing l with
  | zero => omega
  | succ n ih =>
    rw [padLoop]
    by_cases hj : j = l.length
    · have hlt : j < (l ++ [PyVal.dict (defaultScreen l.length)]).length := by
        simp; omega
      rw [padLoop_getElem?_lt _ _ _ hlt, hj, List.getElem?_concat_length]
    · have hge : (l ++ [PyVal.dict (defaultScreen l.length)]).length ≤ j := by
        simp; omega
      have hlt : j < (l ++ [PyVal.dict (defaultScreen l.length)]).length + n := by
        simp; omega
      exact ih _ hge hlt

/-- The padded list is exactly long enough to make the index valid. -/
theorem padScreens_length (l : List PyVal) (i : Nat) :
    (padScreens l i).length = max l.length (i + 1) := by
  rw [padScreens, padLoop_length]; omega

/-- An already-valid index triggers no padding at all. -/
theorem padScreens_eq_of_lt (l : List PyVal) (i : Nat) (h : i < l.length) :
    padScreens l i = l := by
  rw [padScreens]
  have : i + 1 - l.length = 0 := by omega
  rw [this, padLoop]

/-- Existing entries survive padding. -/
theorem padScreens_getElem?_lt (l : List PyVal) (i j : Nat)
    (h : j < l.length) : (padScreens l i)[j]? = l[j]? :=
  padLoop_getElem?_lt _ _ _ h

/-- Padded entries are the default screens. -/
theorem padScreens_getElem?_ge (l : List PyVal) (i j : Nat)
    (h : l.length ≤ j) (h2 : j ≤ i) :
    (padScreens l i)[j]? = some (PyVal.dict (defaultScreen j)) := by
  rw [padScreens]
  exact padLoop_getElem?_ge _ _ _ h (by omega)

/-- The target index is valid after padding. -/
theorem lt_padScreens_length (l : List PyVal) (i : Nat) :
    i < (padScreens l i).length := by
  rw [padScreens_length]; omega

/-- Reading the screens list back out of a freshly written options dict. -/
theorem getScreens_dset (opts : Dict) (l : List PyVal) :
    getScreens (dset opts CONF_SCREENS (PyVal.list l)) = l := by
  rw [getScreens, dget_dset_self]

/-- Closed form of the successful `apply_template` branch. -/
theorem apply_template_eq (opts : Dict) (i : Nat) (k : String)
    (t : Template) (ht : get_template k = some t) :
    apply_template opts i k =
      (true, dset opts CONF_SCREENS
        (PyVal.list ((padScreens (getScreens opts) i).set i
          (PyVal.dict (appliedScreen t (priorScreen opts i)))))) := by
  simp only [apply_template, ht, appliedScreen, templateName, priorScreen]

/-- The screens list after a successful `apply_template`. -/
theorem apply_template_screens (opts : Dict) (i : Nat) (k : String)
    (t : Template) (ht : get_template k = some t) :
    getScreens (apply_template opts i k).2 =
      (padScreens (getScreens opts) i).set i
        (PyVal.dict (appliedScreen t (priorScreen opts i))) := by
  rw [apply_template_eq opts i k t ht]
  exact getScreens_dset _ _

/-- The updated screen read back at the target index. -/
theorem apply_template_screen_at (opts : Dict) (i : Nat) (k : String)
    (t : Template) (ht : get_template k = some t) :
    (getScreens (apply_template opts i k).2)[i]? =
      some (PyVal.dict (appliedScreen t (priorScreen opts i))) := by
  rw [apply_template_screens opts i k t ht]
  exact List.getElem?_set_eq_of_lt _ (lt_padScreens_length _ _)

/-- The widgets stored by `apply_template`. -/
theorem appliedScreen_dget_widgets (t : Template) (s : Dict) :
    dget (appliedScreen t s) CONF_WIDGETS =
      some (PyVal.list (t.widgets.map (fun w => PyVal.dict (widgetFromTemplate w)))) :=
  dget_dset_self _ _ _

/-- The layout stored by `apply_template`. -/
theorem appliedScreen_dget_layout (t : Template) (s : Dict) :
    dget (appliedScreen t s) CONF_LAYOUT = some (PyVal.str t.layout) := by
  rw [appliedScreen, dget_dset_ne _ _ _ _ (by decide), dget_dset_self]

/-- The name stored by `apply_template`. -/
theorem appliedScreen_dget_name (t : Template) (s : Dict) :
    dget (appliedScreen t s) "name" = some (templateName t s) := by
  rw [appliedScreen, dget_dset_ne _ _ _ _ (by decide),
    dget_dset_ne _ _ _ _ (by decide), dget_dset_self]

/-- Applying the same template to an already-templated screen dict
rewrites every key to the value it already holds. -/
theorem appliedScreen_idem (t : Template) (s : Dict) :
    appliedScreen t (appliedScreen t s) = appliedScreen t s := by
  have hw := appliedScreen_dget_widgets t s
  have hl := appliedScreen_dget_layout t s
  have hn := appliedScreen_dget_name t s
  have hname : templateName t (appliedScreen t s) = templateName t s := by
    cases h : t.name with
    | some n => simp [templateName, h]
    | none =>
      simp only [templateName, h, hn]
      simp [templateName, h]
  show dset (dset (dset (appliedScreen t s) "name"
      (templateName t (appliedScreen t s)))
      CONF_LAYOUT (PyVal.str t.layout)) CONF_WIDGETS
      (PyVal.list (t.widgets.map (fun w => PyVal.dict (widgetFromTemplate w)))) =
    appliedScreen t s
  rw [hname, dset_eq_self _ _ _ hn, dset_eq_self _ _ _ hl,
    dset_eq_self _ _ _ hw]

/-- C1: for every screen index `i` and every template key `k` in the
catalog, `apply_template i k` replaces screen `i`'s layout with the
template's layout and its widget list with widgets built from the
template's widget list, and sets the screen's name to the template's name
when the template supplies one, otherwise keeping the screen's previous
name (for an in-range index the prior screen is the original entry at
`i`, as the last conjunct records). -/
theorem apply_template_replaces_layout_widgets_name
    (opts : Dict) (i : Nat) (k : String) (t : Template)
    (hwf : wfOptions opts = true) (ht : get_template k = some t) :
    (apply_template opts i k).1 = true ∧
    ∃ s : Dict,
      (getScreens (apply_template opts i k).2)[i]? = some (PyVal.dict s) ∧
      dget s CONF_LAYOUT = some (PyVal.str t.layout) ∧
      dget s CONF_WIDGETS =
        some (PyVal.list (t.widgets.map (fun w => PyVal.dict (widgetFromTemplate w)))) ∧
      dget s "name" =
        some (match t.name with
          | some n => PyVal.str n
          | none => (dget (priorScreen opts i) "name").getD PyVal.pynone) ∧
      (i < (getScreens opts).length →
        (padScreens (getScreens opts) i)[i]? = (getScreens opts)[i]?) := by
  refine ⟨by rw [apply_template_eq opts i k t ht],
    appliedScreen t (priorScreen opts i),
    apply_template_screen_at opts i k t ht,
    appliedScreen_dget_layout t _,
    appliedScreen_dget_widgets t _,
    ?_,
    fun hi => padScreens_getElem?_lt _ _ _ hi⟩
  rw [appliedScreen_dget_name]
  rfl

/-- Witness for C1: applying the clock template to screen 0 of the
sample configuration. -/
theorem apply_template_replaces_layout_widgets_name_witness :
    (apply_template sampleOpts 0 "clock").1 = true :=
  (apply_template_replaces_layout_widgets_name sampleOpts 0 "clock"
    tmplClock rfl rfl).1

/-- C2: every widget built by `apply_template` from a catalog template
entry consists of exactly the entry's type, its slot and (when present) a
by-value copy of its options under a fresh object identity distinct from
the template's own options object; no label key exists and the template's
hint is not copied. -/
theorem apply_template_widget_build
    (k : String) (t : Template) (j : Nat) (wt : TemplateWidget)
    (ht : get_template k = some t) (hwt : t.widgets[j]? = some wt)
    (fresh : Nat) (hf : ∀ o : ODict, wt.options = some o → fresh ≠ o.oid) :
    dget (widgetFromTemplate wt) "type" = some (PyVal.str wt.type) ∧
    dget (widgetFromTemplate wt) "slot" = some (PyVal.int wt.slot) ∧
    (∀ o : ODict, wt.options = some o →
      dget (widgetFromTemplate wt) "options" = some (PyVal.dict o.entries) ∧
      widgetFromTemplateAlloc fresh wt = some ⟨fresh, o.entries⟩ ∧
      fresh ≠ o.oid) ∧
    (wt.options = none → dget (widgetFromTemplate wt) "options" = none) ∧
    ((widgetFromTemplate wt).map Prod.fst = ["type", "slot"] ∨
      (widgetFromTemplate wt).map Prod.fst = ["type", "slot", "options"]) ∧
    dget (widgetFromTemplate wt) "label" = none ∧
    dget (widgetFromTemplate wt) "hint" = none := by
  cases ho : wt.options with
  | some o =>
    refine ⟨?_, ?_, ?_, ?_, Or.inr ?_, ?_, ?_⟩
    · simp [widgetFromTemplate, ho, dget]
    · simp [widgetFromTemplate, ho, dget]
    · intro o' ho'
      injection ho' with h
      subst h
      exact ⟨by simp [widgetFromTemplate, ho, dget],
        by simp [widgetFromTemplateAlloc, ho], hf o ho⟩
    · intro hnone
      cases hnone
    · simp [widgetFromTemplate, ho]
    · simp [widgetFromTemplate, ho, dget]
    · simp [widgetFromTemplate, ho, dget]
  | none =>
    refine ⟨?_, ?_, ?_, ?_, Or.inl ?_, ?_, ?_⟩
    · simp [widgetFromTemplate, ho, dget]
    · simp [widgetFromTemplate, ho, dget]
    · intro o' ho'
      cases ho'
    · intro _
      simp [widgetFromTemplate, ho, dget]
    · simp [widgetFromTemplate, ho]
    · simp [widgetFromTemplate, ho, dget]
    · simp [widgetFromTemplate, ho, dget]

/-- Witness for C2: the clock template's first widget, with a fresh
allocation identity. -/
theorem apply_template_widget_build_witness :
    dget (widgetFromTemplate clockWidget0) "label" = none :=
  (apply_template_widget_build "clock" tmplClock 0 clockWidget0 rfl rfl
    999 (fun o ho => by cases ho; decide)).2.2.2.2.2.1

/-- C3: `get_template` returns the catalog entry for each of the eight
catalog keys and `none` for every other key, and `apply_template` with a
key outside the catalog returns `False` without touching the
configuration options. -/
theorem get_template_lookup_and_reject :
    get_template "system_monitor" = some tmplSystemMonitor ∧
    get_template "smart_home" = some tmplSmartHome ∧
    get_template "weather" = some tmplWeather ∧
    get_template "media_player" = some tmplMediaPlayer ∧
    get_template "clock" = some tmplClock ∧
    get_template "energy" = some tmplEnergy ∧
    get_template "security" = some tmplSecurity ∧
    get_template "thermostat" = some tmplThermostat ∧
    (∀ k : String, k ∉ SCREEN_TEMPLATES.map Prod.fst → get_template k = none) ∧
    (∀ (opts : Dict) (i : Nat) (k : String), get_template k = none →
      apply_template opts i k = (false, opts)) := by
  refine ⟨rfl, rfl, rfl, rfl, rfl, rfl, rfl, rfl, ?_, ?_⟩
  · intro k hk
    rw [get_template]
    have : SCREEN_TEMPLATES.find? (fun p => p.1 = k) = none := by
      rw [List.find?_eq_none]
      intro p hp
      simp only [decide_eq_true_eq]
      intro hpk
      exact hk (hpk ▸ List.mem_map_of_mem Prod.fst hp)
    rw [this]
    rfl
  · intro opts i k hk
    simp [apply_template, hk]

/-- Witness for C3: the key `"bogus"` is not in the catalog and is
rejected without a configuration change. -/
theorem get_template_lookup_and_reject_witness :
    apply_template sampleOpts 0 "bogus" = (false, sampleOpts) :=
  get_template_lookup_and_reject.2.2.2.2.2.2.2.2.2 sampleOpts 0 "bogus"
    (get_template_lookup_and_reject.2.2.2.2.2.2.2.2.1 "bogus" (by decide))

/-- C4: applying the same catalog template to the same screen twice in
succession, with no intervening configuration change, returns exactly the
state a single application returns (in particular the resulting screen's
name, layout and widget list are identical). -/
theorem apply_template_idempotent
    (opts : Dict) (i : Nat) (k : String) (t : Template)
    (hwf : wfOptions opts = true) (ht : get_template k = some t) :
    apply_template (apply_template opts i k).2 i k = apply_template opts i k := by
  have h1 := apply_template_eq opts i k t ht
  have hs : getScreens (apply_template opts i k).2 =
      (padScreens (getScreens opts) i).set i
        (PyVal.dict (appliedScreen t (priorScreen opts i))) :=
    apply_template_screens opts i k t ht
  have hi : i < ((padScreens (getScreens opts) i).set i
      (PyVal.dict (appliedScreen t (priorScreen opts i)))).length := by
    rw [List.length_set]
    exact lt_padScreens_length _ _
  have hat : ((padScreens (getScreens opts) i).set i
      (PyVal.dict (appliedScreen t (priorScreen opts i))))[i]? =
      some (PyVal.dict (appliedScreen t (priorScreen opts i))) :=
    List.getElem?_set_eq_of_lt _ (lt_padScreens_length _ _)
  have hpad : padScreens (getScreens (apply_template opts i k).2) i =
      (padScreens (getScreens opts) i).set i
        (PyVal.dict (appliedScreen t (priorScreen opts i))) := by
    rw [hs]
    exact padScreens_eq_of_lt _ _ hi
  have hprior : priorScreen (apply_template opts i k).2 i =
      appliedScreen t (priorScreen opts i) := by
    rw [priorScreen, hpad, hat]
    rfl
  have h2 := apply_template_eq (apply_template opts i k).2 i k t ht
  rw [hprior, appliedScreen_idem, hpad, set_eq_self_of_getElem? _ _ _ hat] at h2
  have hget : dget (apply_template opts i k).2 CONF_SCREENS =
      some (PyVal.list ((padScreens (getScreens opts) i).set i
        (PyVal.dict (appliedScreen t (priorScreen opts i))))) := by
    rw [h1]
    exact dget_dset_self _ _ _
  rw [dset_eq_self _ _ _ hget] at h2
  rw [h2, h1]

/-- Witness for C4: double application of the clock template to screen 0
of the sample configuration. -/
theorem apply_template_idempotent_witness :
    apply_template (apply_template sampleOpts 0 "clock").2 0 "clock" =
      apply_template sampleOpts 0 "clock" :=
  apply_template_idempotent sampleOpts 0 "clock" tmplClock rfl rfl

/-- C5: applying the `"clock"` template to screen 0 of a configuration
with at least one screen sets that screen's layout to the hero layout and
its widget list to exactly 4 widgets occupying slots 0, 1, 2, 3, none of
which carries a label. -/
theorem apply_clock_template_screen0
    (opts : Dict) (hwf : wfOptions opts = true)
    (hn : 1 ≤ (getScreens opts).length) :
    (apply_template opts 0 "clock").1 = true ∧
    ∃ s : Dict,
      (getScreens (apply_template opts 0 "clock").2)[0]? = some (PyVal.dict s) ∧
      dget s CONF_LAYOUT = some (PyVal.str LAYOUT_HERO) ∧
      ∃ ws : List PyVal,
        dget s CONF_WIDGETS = some (PyVal.list ws) ∧
        ws.length = 4 ∧
        ws.map (fun w => dget (asDict w) "slot") =
          [some (PyVal.int 0), some (PyVal.int 1),
           some (PyVal.int 2), some (PyVal.int 3)] ∧
        ∀ w ∈ ws, dget (asDict w) "label" = none := by
  have ht : get_template "clock" = some tmplClock := rfl
  refine ⟨by rw [apply_template_eq opts 0 "clock" tmplClock ht],
    appliedScreen tmplClock (priorScreen opts 0),
    apply_template_screen_at opts 0 "clock" tmplClock ht,
    appliedScreen_dget_layout tmplClock _,
    tmplClock.widgets.map (fun w => PyVal.dict (widgetFromTemplate w)),
    appliedScreen_dget_widgets tmplClock _,
    rfl, rfl, ?_⟩
  intro w hw
  simp only [tmplClock, List.map_cons, List.map_nil, List.mem_cons,
    List.not_mem_nil, or_false] at hw
  rcases hw with rfl | rfl | rfl | rfl <;> rfl

/-- Witness for C5: the clock template applied to screen 0 of the sample
configuration. -/
theorem apply_clock_template_screen0_witness :
    (apply_template sampleOpts 0 "clock").1 = true :=
  (apply_clock_template_screen0 sampleOpts rfl (by decide)).1

/-- C6: every catalog template assigns at most one widget per slot, and
every widget's slot index is strictly below the slot count of the
template's layout. -/
theorem templates_respect_slot_counts :
    ∀ p ∈ SCREEN_TEMPLATES,
      (p.2.widgets.map TemplateWidget.slot).Nodup ∧
      ∀ w ∈ p.2.widgets, w.slot < slotCount p.2.layout := by
  decide

/-- Witness for C6: the clock template's slots are distinct and below
the hero layout's slot count. -/
theorem templates_respect_slot_counts_witness :
    (tmplClock.widgets.map TemplateWidget.slot).Nodup ∧
    ∀ w ∈ tmplClock.widgets, w.slot < slotCount tmplClock.layout :=
  templates_respect_slot_counts ("clock", tmplClock)
    (List.Mem.tail _ (List.Mem.tail _ (List.Mem.tail _
      (List.Mem.tail _ (List.Mem.head _)))))

/-- C7 fails as stated: `apply_template` on an index at or beyond the
screen count appends default screens, so the screens list also changes at
non-targeted indices. Concretely, applying the clock template at index 1
of a configuration with no screens creates an entry at index 0. -/
theorem config_mutations_frame_counterexample :
    ¬ (∀ j : Nat, j ≠ 1 →
      (getScreens (apply_template sampleNoScreens 1 "clock").2)[j]? =
        (getScreens sampleNoScreens)[j]?) :=
  fun h => Option.noConfusion (h 0 (by decide))

/-- C7 (amended): every configuration mutation returns a new options
mapping equal to the previous one at every key other than the screens
key (the previous mapping itself is a pure value and is never mutated).
Within the screens list, the set-layout and set-widget mutations preserve
the length and change at most the targeted index; `apply_template` leaves
every other previously existing screen unchanged, and any non-target
index it adds (only when the target index was out of range) holds a
default screen. -/
theorem config_mutations_frame (opts : Dict) (hwf : wfOptions opts = true) :
    (∀ (si : Nat) (key : Option String),
      (∀ kk, kk ≠ CONF_SCREENS →
        dget (selectLayoutOption opts si key) kk = dget opts kk) ∧
      (getScreens (selectLayoutOption opts si key)).length =
        (getScreens opts).length ∧
      (∀ j, j ≠ si →
        (getScreens (selectLayoutOption opts si key))[j]? =
          (getScreens opts)[j]?)) ∧
    (∀ (si slot : Nat) (wt : Option String),
      (∀ kk, kk ≠ CONF_SCREENS →
        dget (selectWidgetOption opts si slot wt) kk = dget opts kk) ∧
      (getScreens (selectWidgetOption opts si slot wt)).length =
        (getScreens opts).length ∧
      (∀ j, j ≠ si →
        (getScreens (selectWidgetOption opts si slot wt))[j]? =
          (getScreens opts)[j]?)) ∧
    (∀ (i : Nat) (k : String),
      (∀ kk, kk ≠ CONF_SCREENS →
        dget (apply_template opts i k).2 kk = dget opts kk) ∧
      (∀ j, j < (getScreens opts).length → j ≠ i →
        (getScreens (apply_template opts i k).2)[j]? =
          (getScreens opts)[j]?) ∧
      (∀ j, (getScreens opts).length ≤ j → j ≠ i →
        (getScreens (apply_template opts i k).2)[j]? = none ∨
        (getScreens (apply_template opts i k).2)[j]? =
          some (PyVal.dict (defaultScreen j)))) := by
  refine ⟨?_, ?_, ?_⟩
  · intro si key
    cases key with
    | none => exact ⟨fun kk _ => rfl, rfl, fun j _ => rfl⟩
    | some kk2 =>
      by_cases hlt : si < (getScreens opts).length
      · refine ⟨fun kk hkk => ?_, ?_, fun j hj => ?_⟩
        · simp only [selectLayoutOption, hlt, if_true]
          exact dget_dset_ne _ _ _ _ hkk
        · simp only [selectLayoutOption, hlt, if_true, getScreens_dset]
          exact List.length_set _ _ _
        · simp only [selectLayoutOption, hlt, if_true, getScreens_dset]
          rw [List.getElem?_set, if_neg (Ne.symm hj)]
      · refine ⟨fun kk _ => ?_, ?_, fun j _ => ?_⟩ <;>
          simp [selectLayoutOption, hlt]
  · intro si slot wt
    cases wt with
    | none => exact ⟨fun kk _ => rfl, rfl, fun j _ => rfl⟩
    | some wt2 =>
      by_cases hlt : si < (getScreens opts).length
      · refine ⟨fun kk hkk => ?_, ?_, fun j hj => ?_⟩
        · simp only [selectWidgetOption, hlt, if_true]
          exact dget_dset_ne _ _ _ _ hkk
        · simp only [selectWidgetOption, hlt, if_true, getScreens_dset]
          exact List.length_set _ _ _
        · simp only [selectWidgetOption, hlt, if_true, getScreens_dset]
          rw [List.getElem?_set, if_neg (Ne.symm hj)]
      · refine ⟨fun kk _ => ?_, ?_, fun j _ => ?_⟩ <;>
          simp [selectWidgetOption, hlt]
  · intro i k
    cases hk : get_template k with
    | none =>
      refine ⟨fun kk _ => by simp [apply_template, hk],
        fun j _ _ => by simp [apply_template, hk],
        fun j hj _ => Or.inl ?_⟩
      simp only [apply_template, hk]
      exact List.getElem?_eq_none hj
    | some t =>
      refine ⟨fun kk hkk => ?_, fun j hjlt hj => ?_, fun j hjge hj => ?_⟩
      · rw [apply_template_eq opts i k t hk]
        exact dget_dset_ne _ _ _ _ hkk
      · rw [apply_template_screens opts i k t hk,
          List.getElem?_set, if_neg (Ne.symm hj)]
        exact padScreens_getElem?_lt _ _ _ hjlt
      · rcases Nat.lt_or_ge j ((getScreens (apply_template opts i k).2)).length
          with hbound | hbound
        · refine Or.inr ?_
          rw [apply_template_screens opts i k t hk] at hbound ⊢
          rw [List.getElem?_set, if_neg (Ne.symm hj)]
          rw [List.length_set, padScreens_length] at hbound
          exact padScreens_getElem?_ge _ _ _ hjge (by omega)
        · exact Or.inl (List.getElem?_eq_none hbound)

/-- Witness for C7 (amended): the layout mutation on the sample
configuration leaves the non-screens keys unchanged. -/
theorem config_mutations_frame_witness :
    dget (selectLayoutOption sampleOpts 0 (some LAYOUT_HERO)) "host" =
      dget sampleOpts "host" :=
  ((config_mutations_frame sampleOpts rfl).1 0 (some LAYOUT_HERO)).1 "host"
    (by decide)

/-- C8: the device-mode selector reads theme 3 as the custom image mode,
themes 0/1/2 as clock/weather/system, and an absent device state or any
other theme as custom; selecting a mode writes back theme 3/0/1/2
respectively, and any unknown option defaults to 3. -/
theorem mode_select_theme_mapping :
    modeCurrentOption (some 3) = deviceMode "custom" ∧
    modeCurrentOption (some 0) = deviceMode "clock" ∧
    modeCurrentOption (some 1) = deviceMode "weather" ∧
    modeCurrentOption (some 2) = deviceMode "system" ∧
    modeCurrentOption none = deviceMode "custom" ∧
    (∀ th : Int, th ≠ 0 → th ≠ 1 → th ≠ 2 → th ≠ 3 →
      modeCurrentOption (some th) = deviceMode "custom") ∧
    modeSelectTheme (deviceMode "custom") = 3 ∧
    modeSelectTheme (deviceMode "clock") = 0 ∧
    modeSelectTheme (deviceMode "weather") = 1 ∧
    modeSelectTheme (deviceMode "system") = 2 ∧
    (∀ s : String, s ∉ DEVICE_MODES.map Prod.snd → modeSelectTheme s = 3) := by
  refine ⟨rfl, rfl, rfl, rfl, rfl, ?_, rfl, rfl, rfl, rfl, ?_⟩
  · intro th h0 h1 h2 h3
    simp [modeCurrentOption, h0, h1, h2, h3]
  · intro s hs
    simp only [DEVICE_MODES, List.map_cons, List.map_nil, List.mem_cons,
      List.not_mem_nil, or_false, not_or] at hs
    obtain ⟨n1, n2, n3, n4⟩ := hs
    simp [modeSelectTheme, deviceMode, DEVICE_MODES, n1, n2, n3, n4]

/-- Witness for C8: an out-of-range theme reads as custom and an unknown
option writes theme 3. -/
theorem mode_select_theme_mapping_witness :
    modeCurrentOption (some 7) = deviceMode "custom" ∧
    modeSelectTheme "Bogus Mode" = 3 :=
  ⟨mode_select_theme_mapping.2.2.2.2.2.1 7 (by decide) (by decide)
      (by decide) (by decide),
    mode_select_theme_mapping.2.2.2.2.2.2.2.2.2.2 "Bogus Mode" (by decide)⟩

/-- C9: `apply_template` with a catalog key and a screen index at or
beyond the current screen count does not reject the call: it appends
default screens — named "Screen N" for 1-based position N, with the
2x2-grid layout and an empty widget list — until the index exists, then
applies the template to that screen and returns `True`. -/
theorem apply_template_pads_missing_screens
    (opts : Dict) (i : Nat) (k : String) (t : Template)
    (hwf : wfOptions opts = true) (ht : get_template k = some t)
    (hlen : (getScreens opts).length ≤ i) :
    (apply_template opts i k).1 = true ∧
    (getScreens (apply_template opts i k).2).length = i + 1 ∧
    (∀ j, (getScreens opts).length ≤ j → j < i →
      (getScreens (apply_template opts i k).2)[j]? =
        some (PyVal.dict (defaultScreen j))) ∧
    (getScreens (apply_template opts i k).2)[i]? =
      some (PyVal.dict (appliedScreen t (defaultScreen i))) ∧
    (∀ j : Nat,
      dget (defaultScreen j) "name" =
        some (PyVal.str ("Screen " ++ toString (j + 1))) ∧
      dget (defaultScreen j) CONF_LAYOUT = some (PyVal.str LAYOUT_GRID_2X2) ∧
      dget (defaultScreen j) CONF_WIDGETS = some (PyVal.list [])) := by
  have hprior : priorScreen opts i = defaultScreen i := by
    rw [priorScreen, padScreens_getElem?_ge _ _ _ hlen (Nat.le_refl i)]
    rfl
  refine ⟨by rw [apply_template_eq opts i k t ht], ?_, ?_, ?_,
    fun j => ⟨rfl, rfl, rfl⟩⟩
  · rw [apply_template_screens opts i k t ht, List.length_set,
      padScreens_length]
    omega
  · intro j hj hji
    rw [apply_template_screens opts i k t ht, List.getElem?_set,
      if_neg (by omega)]
    exact padScreens_getElem?_ge _ _ _ hj (by omega)
  · rw [← hprior]
    exact apply_template_screen_at opts i k t ht

/-- Witness for C9: applying the thermostat template at index 3 of the
two-screen sample configuration. -/
theorem apply_template_pads_missing_screens_witness :
    (getScreens (apply_template sampleOpts 3 "thermostat").2)[2]? =
      some (PyVal.dict (defaultScreen 2)) :=
  (apply_template_pads_missing_screens sampleOpts 3 "thermostat"
    tmplThermostat rfl rfl (by decide)).2.2.1 2 (by decide) (by decide)

/-- The camera's cache after the publish sequence is exactly the most
recent non-absent published image (the listener replaces the cache on
every non-`None` update and keeps it otherwise). -/
theorem camRun_eq_lastSome (init : Option Bytes) (pubs : List (Option Bytes)) :
    camRun init pubs = lastSome (init :: pubs) := by
  induction pubs generalizing init with
  | nil => cases init <;> rfl
  | cons v rest ih =>
    have h2 : camRun init (v :: rest) = camRun (camUpdate init v) rest := rfl
    rw [h2, ih]
    show lastSome (camUpdate init v :: rest) = lastSome (init :: v :: rest)
    cases h : lastSome rest with
    | some b => simp only [lastSome, h]
    | none => cases v <;> simp only [lastSome, h, camUpdate]

/-- A non-absent most-recent value was actually published. -/
theorem lastSome_mem (l : List (Option Bytes)) (b : Bytes)
    (h : lastSome l = some b) : some b ∈ l := by
  induction l with
  | nil => cases h
  | cons v rest ih =>
    simp only [lastSome] at h
    cases hr : lastSome rest with
    | some c =>
      rw [hr] at h
      injection h with h2
      subst h2
      exact List.mem_cons_of_mem _ (ih hr)
    | none =>
      rw [hr] at h
      exact h ▸ List.mem_cons_self _ _

/-- When no non-absent value exists, every published value was absent. -/
theorem lastSome_eq_none (l : List (Option Bytes))
    (h : lastSome l = none) : ∀ v ∈ l, v = none := by
  induction l with
  | nil => intro v hv; cases hv
  | cons v rest ih =>
    simp only [lastSome] at h
    cases hr : lastSome rest with
    | some c => rw [hr] at h; cases h
    | none =>
      rw [hr] at h
      intro w hw
      rcases List.mem_cons.mp hw with rfl | hmem
      · exact h
      · exact ih hr w hmem

/-- If everything published was absent, the coordinator's current image
is absent. -/
theorem coordLast_eq_none (init : Option Bytes) (pubs : List (Option Bytes))
    (h : ∀ v ∈ init :: pubs, v = none) : coordLast init pubs = none := by
  rw [coordLast]
  cases hp : pubs.getLast? with
  | none => simpa using h init (List.mem_cons_self _ _)
  | some x =>
    have hx : x ∈ pubs := by
      obtain ⟨hne, heq⟩ := List.mem_getLast?_eq_getLast (Option.mem_def.mpr hp)
      exact heq ▸ List.getLast_mem hne
    simpa using h x (List.mem_cons_of_mem _ hx)

/-- C10 fails as stated: when the coordinator's image at entity-add time
is the empty byte string and a later update reports an absent image, the
camera returns the placeholder even though the most recent non-absent
published image (the cached empty byte string) exists — Python's `or`
treats `b""` as falsy, so the cache is bypassed. -/
theorem camera_image_counterexample :
    lastSome (some ([] : Bytes) :: [none]) = some ([] : Bytes) ∧
    camRun (some ([] : Bytes)) [none] = some ([] : Bytes) ∧
    (camImage (camRun (some ([] : Bytes)) [none])
        (coordLast (some ([] : Bytes)) [none])).1 ≠ ([] : Bytes) ∧
    (camImage (camRun (some ([] : Bytes)) [none])
        (coordLast (some ([] : Bytes)) [none])).1 = PLACEHOLDER_PNG :=
  ⟨by decide, by decide, by decide, by decide⟩

/-- C10 (amended): provided every image the coordinator publishes is
non-empty, every `async_camera_image` call returns the most recent
non-absent image published since (or at) entity add, and the fixed 1x1
placeholder PNG when none exists; an absent coordinator update never
clears the cache. -/
theorem camera_image_returns_latest (init : Option Bytes)
    (pubs : List (Option Bytes))
    (hne : ∀ b : Bytes, some b ∈ init :: pubs → b ≠ []) :
    (camImage (camRun init pubs) (coordLast init pubs)).1 =
      (lastSome (init :: pubs)).getD PLACEHOLDER_PNG ∧
    camRun init (pubs ++ [none]) = camRun init pubs := by
  refine ⟨?_, by rw [camRun, camRun, List.foldl_append]; rfl⟩
  rw [camRun_eq_lastSome]
  cases h : lastSome (init :: pubs) with
  | some b =>
    have hb : b ≠ [] := hne b (lastSome_mem _ _ h)
    simp [camImage, pyOrBytes, hb]
  | none =>
    have hcl : coordLast init pubs = none :=
      coordLast_eq_none _ _ (lastSome_eq_none _ h)
    simp [camImage, pyOrBytes, hcl]

/-- Witness for C10 (amended): a concrete publish sequence with a stale
non-empty image followed by an absent update. -/
theorem camera_image_returns_latest_witness :
    (camImage (camRun (some [1, 2]) [none, some [3], none])
        (coordLast (some [1, 2]) [none, some [3], none])).1 = [3] :=
  (camera_image_returns_latest (some [1, 2]) [none, some [3], none]
    (by intro b hb; simp at hb; rcases hb with rfl | rfl <;> decide)).1

end GeekMagic
